import Mathlib

/-!
# Verification of the e-physio ↔ GHL synchronization engine

A shallow embedding, in Lean 4, of the core logic of the
`e-physio-integration` repository: the phone normalizers, the CRM payload
builders, the retry loop around outbound CRM writes, the rate limiter used
by the concurrent dispatch commands, the incremental patient/appointment
sync tasks, the CRM webhook handler, and the token-refresh routine.

Python strings are modelled as Lean `String`s (operated on through their
character lists so everything reduces in the kernel), Python `None`-able
values as `Option`, Python truthiness on optional strings via `isFalsy`,
wall-clock time as a logical clock over `ℚ`, and fallible HTTP calls as
explicit parameters (`Except` / response sequences).
-/

namespace EPhysio

/-- Python truthiness of an optional string: `None` and `""` are falsy. -/
def isFalsy : Option String → Bool
  | none => true
  | some s => s = ""

/-- Models Python `x or None` applied to an optional string field:
an empty string collapses to `None`. -/
def orNone (o : Option String) : Option String :=
  if isFalsy o then none else o

/-- Models Python `str(x)` on an optional string: `str(None) = "None"`. -/
def pyStr : Option String → String
  | none => "None"
  | some s => s

/-- `s.startswith(p)` on the character-list view of strings. -/
def strStartsWith (s p : String) : Bool :=
  p.data.isPrefixOf s.data

/-- `s[n:]` (drop the first `n` characters). -/
def strDrop (s : String) (n : Nat) : String :=
  ⟨s.data.drop n⟩

/-- Keep only the characters satisfying `f` (models `re.sub` removal and
chained `str.replace(c, "")`). -/
def strFilter (f : Char → Bool) (s : String) : String :=
  ⟨s.data.filter f⟩

/-- String concatenation on the character-list view. -/
def strAppend (s t : String) : String :=
  ⟨s.data ++ t.data⟩

/-- `s.isdigit()`: nonempty and all characters are ASCII digits. -/
def strIsDigit (s : String) : Bool :=
  !s.data.isEmpty && s.data.all (fun c => c.isDigit)

/-- `len(s)`. -/
def strLen (s : String) : Nat :=
  s.data.length

/-- `s.strip()` — remove leading and trailing whitespace. -/
def strStrip (s : String) : String :=
  ⟨(s.data.dropWhile (fun c => c.isWhitespace)).reverse.dropWhile
      (fun c => c.isWhitespace) |>.reverse⟩

/-- `s.split(c)` for a one-character separator, with Python semantics:
`"".split(".") = [""]`, empty fields preserved. -/
def splitOnChar (c : Char) : List Char → List (List Char)
  | [] => [[]]
  | x :: xs =>
    if x = c then
      [] :: splitOnChar c xs
    else
      match splitOnChar c xs with
      | h :: t => (x :: h) :: t
      | [] => [[x]]

/-- `s.zfill(w)`: left-pad with `'0'` to width `w`. -/
def zfill (s : String) (w : Nat) : String :=
  ⟨List.replicate (w - s.data.length) '0' ++ s.data⟩

/-!
## Phone normalizers

`normalize_phone` from `ephysio/utils.py` (Clinic-facing, produces local
Swiss `0…` format) and `validate_and_clean_phone` from
`ghl_accounts/services/contacts.py` (CRM-facing, produces E.164-ish
format or `None`).
-/

/-- Core of `ephysio.utils.normalize_phone` on a nonempty string:
`re.sub(r"[^\d+]", "", phone)`, drop a leading `+`, drop a leading
country code `41`, ensure a leading `0`. -/
def normalizePhoneCore (s : String) : String :=
  let p := strFilter (fun c => c.isDigit || c = '+') s
  let p := if strStartsWith p "+" then strDrop p 1 else p
  let p := if strStartsWith p "41" then strDrop p 2 else p
  if strStartsWith p "0" then p else strAppend "0" p

/-- `ephysio.utils.normalize_phone`: `if not phone: return None`, else the
core normalization. -/
def normalize_phone (phone : Option String) : Option String :=
  if isFalsy phone then none
  else some (normalizePhoneCore (phone.getD ""))

/-- `ghl_accounts.services.contacts.validate_and_clean_phone`. -/
def validate_and_clean_phone (phone : Option String) : Option String :=
  if isFalsy phone then none
  else
    let p := strFilter (fun c => ¬(c = ' ' ∨ c = '-' ∨ c = '(' ∨ c = ')'))
      (strStrip (phone.getD ""))
    if strStartsWith p "+" then
      if strLen p > 1 && strIsDigit (strDrop p 1) then some p else none
    else if strStartsWith p "00" then
      some (strAppend "+" (strDrop p 2))
    else if strStartsWith p "41" && strLen p ≥ 10 then
      some (strAppend "+" p)
    else if strStartsWith p "0" && strLen p ≥ 10 then
      some (strAppend "+41" (strDrop p 1))
    else if strIsDigit p && strLen p ≥ 10 then
      some p
    else
      none

/-!
## Birth-date conversion in the CRM contact payload builder

From `build_ghl_contact_payload` in `ghl_accounts/services/contacts.py`:
split the stored `birth_date` on `'.'`; when it yields exactly three
parts `[day, month, year]`, emit `f"{year}-{month.zfill(2)}-{day.zfill(2)}"`,
otherwise the `dateOfBirth` key is left unset.
-/

/-- The `dateOfBirth` value computed by `build_ghl_contact_payload`
(`none` means the key is omitted from the payload). -/
def dobField (birth_date : Option String) : Option String :=
  if isFalsy birth_date then none
  else
    match (splitOnChar '.' (birth_date.getD "").data).map (fun l => String.mk l) with
    | [day, month, year] =>
      some (strAppend year (strAppend "-"
        (strAppend (zfill month 2) (strAppend "-" (zfill day 2)))))
    | _ => none

/-- Spec-side well-formedness of a `YYYY-MM-DD` date string: exactly
`dddd-dd-dd` with ASCII digits. Used only to state that a transmitted
`dateOfBirth` can be malformed. -/
def isIsoDateShape (s : String) : Bool :=
  match s.data with
  | [y1, y2, y3, y4, d1, m1, m2, d2, dd1, dd2] =>
    y1.isDigit && y2.isDigit && y3.isDigit && y4.isDigit &&
    d1 = '-' && m1.isDigit && m2.isDigit && d2 = '-' &&
    dd1.isDigit && dd2.isDigit
  | _ => false

/-!
## Provenance rule of the incremental sync tasks

Both `sync_patients_incremental` and `sync_appointments_incremental`
guard the `source` field of an updated row with
`if not row.source or row.source == 'ephysio': row.source = 'ephysio'`.
-/

/-- The `source` value after the update branch of either sync task. -/
def updatedSource (s : String) : String :=
  if s = "" ∨ s = "ephysio" then "ephysio" else s

/-!
## The rate limiter of the concurrent dispatch commands

From `ghl_accounts/management/commands/sync_contacts_to_ghl.py` (and the
identical class in `sync_appointments_to_ghl.py`):

```
class RateLimiter:
    def __init__(self, max_calls_per_second):
        self.max_calls = max_calls_per_second
        self.min_interval = 1.0 / max_calls_per_second
        self.last_called = [0.0] * max_calls_per_second
        self.index = 0
    def wait(self):
        with self.lock:
            now = time.time()
            elapsed = now - self.last_called[self.index]
            if elapsed < self.min_interval:
                time.sleep(self.min_interval - elapsed)
            self.last_called[self.index] = time.time()
            self.index = (self.index + 1) % self.max_calls
```

`time.sleep` is modelled as advancing a logical clock by the slept
amount; `time.time()` reads the clock. The run below is the sequential
(single-worker, zero processing time between admissions) execution, a
valid execution of the dispatcher.
-/

/-- Rational addition through `mkRat`, so that rate-limiter runs evaluate
inside the kernel; proved equal to `(· + ·)` in `ratAdd_eq`. -/
def ratAdd (a b : ℚ) : ℚ :=
  mkRat (a.num * b.den + b.num * a.den) (a.den * b.den)

/-- Rational subtraction through `mkRat`; proved equal to `(· - ·)` in
`ratSub_eq`. -/
def ratSub (a b : ℚ) : ℚ :=
  mkRat (a.num * b.den - b.num * a.den) (a.den * b.den)

theorem ratAdd_eq (a b : ℚ) : ratAdd a b = a + b := by
  rw [ratAdd, Rat.mkRat_eq_div]
  conv_rhs => rw [← Rat.num_div_den a, ← Rat.num_div_den b]
  have ha : (a.den : ℚ) ≠ 0 := by exact_mod_cast a.den_nz
  have hb : (b.den : ℚ) ≠ 0 := by exact_mod_cast b.den_nz
  push_cast
  field_simp
  try ring

theorem ratSub_eq (a b : ℚ) : ratSub a b = a - b := by
  rw [ratSub, Rat.mkRat_eq_div]
  conv_rhs => rw [← Rat.num_div_den a, ← Rat.num_div_den b]
  have ha : (a.den : ℚ) ≠ 0 := by exact_mod_cast a.den_nz
  have hb : (b.den : ℚ) ≠ 0 := by exact_mod_cast b.den_nz
  push_cast
  field_simp
  try ring

/-- Logical state of a `RateLimiter`: the `last_called` ring, the
round-robin `index`, and the logical wall clock. -/
structure RLState where
  last : List ℚ
  index : Nat
  clock : ℚ
  deriving Repr, DecidableEq

/-- `RateLimiter.__init__(maxCalls)` with the logical clock at `t0`. -/
def rlInit (maxCalls : Nat) (t0 : ℚ) : RLState :=
  { last := List.replicate maxCalls (mkRat 0 1), index := 0, clock := t0 }

/-- One `RateLimiter.wait()` call: returns the admission timestamp
(the value written into `last_called`) and the next state. Core `Rat`
operations are used so that runs evaluate inside the kernel;
`min_interval = 1.0 / max_calls` is `mkRat 1 maxCalls`. -/
def rlWait (maxCalls : Nat) (s : RLState) : ℚ × RLState :=
  let minInterval : ℚ := mkRat 1 maxCalls
  let now := s.clock
  let elapsed := ratSub now (s.last.getD s.index (mkRat 0 1))
  let admitted :=
    if Rat.blt elapsed minInterval then ratAdd now (ratSub minInterval elapsed)
    else now
  (admitted,
    { last := s.last.set s.index admitted
      index := (s.index + 1) % maxCalls
      clock := admitted })

/-- State after one `wait()` call. Note the admission timestamp of a call
is exactly the `clock` of the state it leaves behind. -/
def rlStep (maxCalls : Nat) (s : RLState) : RLState :=
  (rlWait maxCalls s).2

/-- State after `n` successive `wait()` calls. -/
def rlIter (maxCalls : Nat) : Nat → RLState → RLState
  | 0, s => s
  | n + 1, s => rlIter maxCalls n (rlStep maxCalls s)

/-- Admission timestamps of `n` sequential `RateLimiter(maxCalls).wait()`
calls starting with the logical clock at `t0`: the `k`-th admission
timestamp is the clock after `k+1` calls. -/
def rlTimestamps (maxCalls n : Nat) (t0 : ℚ) : List ℚ :=
  (List.range n).map (fun k => (rlIter maxCalls (k + 1) (rlInit maxCalls t0)).clock)

theorem rlIter_add (m a b : Nat) (s : RLState) :
    rlIter m (a + b) s = rlIter m b (rlIter m a s) := by
  induction a generalizing s with
  | zero => rw [Nat.zero_add]; rfl
  | succ a ih =>
    have : a + 1 + b = (a + b) + 1 := by omega
    rw [this]
    show rlIter m (a + b) (rlStep m s) = _
    rw [ih]
    rfl

/-!
## Outbound CRM writes: retry loop and single-shot contact create

`create_ghl_appointment` in `ghl_accounts/services/appointments.py`
retries up to `MAX_RETRIES = 3` times on HTTP 5xx and on
timeout/connection errors, sleeping `RETRY_DELAY * (attempt + 1)` seconds
between attempts (`RETRY_DELAY = 2`); every non-2xx terminal response is
classified as an error result. `create_ghl_contact` in
`ghl_accounts/services/contacts.py` performs a single request with no
retry loop.
-/

/-- Outcome of one HTTP attempt, as distinguished by the Python code. -/
inductive Attempt where
  /-- 2xx response whose body yields data (models `response.json()`). -/
  | ok (body : String)
  /-- Any other HTTP status code with its (already extracted) message. -/
  | http (status : Nat) (message : String)
  /-- `requests.exceptions.Timeout` / `ConnectionError`. -/
  | network (message : String)
  /-- Any other exception. -/
  | exc (message : String)
  deriving Repr, DecidableEq

/-- Classification of a finished write, plus bookkeeping the claims need:
how many attempts were made and which backoff sleeps happened. -/
structure WriteResult where
  /-- `true` iff the returned dict has no `error` key. -/
  success : Bool
  /-- The `status_code` recorded in the error dict, when one was. -/
  statusCode : Option Nat
  /-- Number of HTTP attempts actually performed. -/
  attempts : Nat
  /-- Sleeps performed between attempts, in seconds, in order. -/
  delays : List Nat
  deriving Repr, DecidableEq

/-- `MAX_RETRIES` in `ghl_accounts/services/appointments.py`. -/
def MAX_RETRIES : Nat := 3

/-- `RETRY_DELAY` in `ghl_accounts/services/appointments.py`. -/
def RETRY_DELAY : Nat := 2

/-- The `for attempt in range(MAX_RETRIES)` loop body of
`create_ghl_appointment`, with `responses k` the outcome of the
`(k+1)`-st HTTP attempt. `fuel` counts the remaining loop iterations
(`MAX_RETRIES - attempt` at every call). -/
def apptLoop (responses : Nat → Attempt) : Nat → Nat → WriteResult
  | _, 0 =>
    -- fallthrough: `return {"error": "Failed after all retry attempts"}`
    { success := false, statusCode := none, attempts := MAX_RETRIES, delays := [] }
  | attempt, fuel + 1 =>
    match responses attempt with
    | .ok _ =>
      { success := true, statusCode := none, attempts := attempt + 1, delays := [] }
    | .http status _ =>
      if status ≥ 500 ∧ attempt < MAX_RETRIES - 1 then
        let rest := apptLoop responses (attempt + 1) fuel
        { rest with delays := RETRY_DELAY * (attempt + 1) :: rest.delays }
      else
        { success := false, statusCode := some status, attempts := attempt + 1
          delays := [] }
    | .network _ =>
      if attempt < MAX_RETRIES - 1 then
        let rest := apptLoop responses (attempt + 1) fuel
        { rest with delays := RETRY_DELAY * (attempt + 1) :: rest.delays }
      else
        { success := false, statusCode := none, attempts := attempt + 1
          delays := [] }
    | .exc _ =>
      { success := false, statusCode := none, attempts := attempt + 1, delays := [] }

/-- `create_ghl_appointment`'s request loop (auth and the
`ghl_contact_id` guard are handled by its callers' embedding). -/
def create_ghl_appointment_loop (responses : Nat → Attempt) : WriteResult :=
  apptLoop responses 0 MAX_RETRIES

/-- `create_ghl_contact`'s single request (`ghl_accounts/services/contacts.py`):
one attempt, 2xx is success, anything else is the error classification —
there is no retry loop. -/
def create_ghl_contact_call (responses : Nat → Attempt) : WriteResult :=
  match responses 0 with
  | .ok _ => { success := true, statusCode := none, attempts := 1, delays := [] }
  | .http status _ =>
    { success := false, statusCode := some status, attempts := 1, delays := [] }
  | .network _ => { success := false, statusCode := none, attempts := 1, delays := [] }
  | .exc _ => { success := false, statusCode := none, attempts := 1, delays := [] }

/-!
## Data model

`ContactSync` and `AppointmentSync` rows from `ghl_accounts/models.py`,
and the shapes of the external records the sync code reads. The database
is modelled as a list of rows; Django's `.first()` picks the first match
and the `{key: row for row in qs}` dict-comprehension pattern keeps the
last match, so both lookups are modelled explicitly.
-/

/-- A `ContactSync` row (`ghl_accounts/models.py`). -/
structure ContactRow where
  ghl_contact_id : Option String := none
  ephysio_patient_id : Option String := none
  email : Option String := none
  phone : Option String := none
  first_name : Option String := none
  last_name : Option String := none
  salutation : Option String := none
  street : Option String := none
  zip : Option String := none
  city : Option String := none
  birth_date : Option String := none
  sex : Option Bool := none
  source : String
  deriving Repr, DecidableEq

/-- An `AppointmentSync` row (`ghl_accounts/models.py`). `DateTimeField`
values are modelled by their epoch-millisecond value. -/
structure ApptRow where
  ghl_appointment_id : Option String := none
  ghl_contact_id : Option String := none
  ephysio_patient_id : String
  ephysio_appointment_id : Option String := none
  start_time : Int
  end_time : Int
  status : Option String := none
  event_type_id : Option Int := none
  user_id : Option Int := none
  client_id : Option Int := none
  admin_info_id : Option Int := none
  source : String
  deriving Repr, DecidableEq

/-- A patient dict returned by the e-Physio `listActivePatients` API
(`ephysio/services/patients.py`). String-valued fields carry the already
`str`-rendered value; `none` models an absent key or JSON `null`. -/
structure EPatient where
  id : Option String := none
  phone : Option String := none
  email : Option String := none
  firstName : Option String := none
  lastName : Option String := none
  salutation : Option String := none
  street : Option String := none
  zip : Option String := none
  city : Option String := none
  birthDate : Option String := none
  sex : Option Bool := none
  deriving Repr, DecidableEq

/-- The fields of an inbound CRM `ContactCreate`/`ContactUpdate` webhook
payload read by `handle_contact_event` (`ghl_accounts/views.py`). -/
structure WebhookContact where
  id : Option String := none
  email : Option String := none
  phone : Option String := none
  firstName : Option String := none
  lastName : Option String := none
  deriving Repr, DecidableEq

/-- Replace the first element satisfying `p` by its image under `f`. -/
def updateFirst (p : α → Bool) (f : α → α) : List α → List α
  | [] => []
  | x :: xs => if p x then f x :: xs else x :: updateFirst p f xs

/-- Replace the last element satisfying `p` by its image under `f`
(models saving the object a `{key: row}` dict comprehension retained). -/
def updateLast (p : α → Bool) (f : α → α) (l : List α) : List α :=
  (updateFirst p f l.reverse).reverse

/-- Last row of `db` with the given non-null `ephysio_patient_id` — the
row a `{str(c.ephysio_patient_id): c for c in ...}` dict maps `pid` to. -/
def lookupContactLast (db : List ContactRow) (pid : String) : Option ContactRow :=
  (db.filter (fun r => r.ephysio_patient_id == some pid)).getLast?

/-!
## The CRM contact webhook (`handle_contact_event` in `ghl_accounts/views.py`)

On an event with a truthy contact id: if a `ContactSync` row with that
`ghl_contact_id` exists, its `email`/`phone` are overwritten; otherwise a
new row with `source="ghl"` is created. Either way
`sync_ghl_contact_to_ephysio` (`ephysio/services/patients.py`) then looks
the phone up among the active Clinic patients via `normalize_phone` and
writes the matched (or freshly created) Clinic patient id into the same
row's `ephysio_patient_id`. The external `create_patient` call is
modelled by the id the Clinic API returns for it (`createdPatientId`).
-/

/-- `find_patient_by_phone` (`ephysio/services/patients.py`). -/
def find_patient_by_phone (phone : Option String) (patients : List EPatient) :
    Option EPatient :=
  if isFalsy phone then none
  else patients.find? (fun p => normalize_phone p.phone == normalize_phone phone)

/-- `sync_ghl_contact_to_ephysio`, reduced to the `ephysio_patient_id`
it stores on the sync row: the phone-matched Clinic patient's id, or the
id returned by the Clinic `create_patient` call. -/
def linkedEphysioId (phone : Option String) (patients : List EPatient)
    (createdPatientId : Option String) : Option String :=
  match find_patient_by_phone phone patients with
  | some p => p.id
  | none => createdPatientId

/-- Does saving `ephysio_patient_id := x` into the row(s) satisfying
`isTarget` violate the model's `unique=True` constraint on
`ephysio_patient_id`, i.e. does some other row already hold the same
non-null id? -/
def linkConflict (db : List ContactRow) (isTarget : ContactRow → Bool)
    (x : Option String) : Bool :=
  x.isSome && db.any (fun r => !isTarget r && r.ephysio_patient_id == x)

/-- `handle_contact_event` and the `sync_ghl_contact_to_ephysio` call it
makes. Returns the table after processing and the outcome: `.error`
models both the 400 responses and a propagated exception — in particular
the `IntegrityError` Django raises when the linking save writes an
`ephysio_patient_id` another row already holds (the field is
`unique=True`); the row created/updated before that save persists. -/
def handle_contact_event (db : List ContactRow) (patients : List EPatient)
    (data : WebhookContact) (createdPatientId : Option String) :
    List ContactRow × Except String Unit :=
  if isFalsy data.id then (db, .error "Missing contact id")
  else
    let gid := data.id.getD ""
    let isTarget : ContactRow → Bool := fun r => r.ghl_contact_id == some gid
    let link := linkedEphysioId data.phone patients createdPatientId
    match db.find? isTarget with
    | some _ =>
      let db1 := updateFirst isTarget
        (fun r => { r with email := data.email, phone := data.phone }) db
      if linkConflict db1 isTarget link then (db1, .error "IntegrityError")
      else
        (updateFirst isTarget (fun r => { r with ephysio_patient_id := link }) db1,
          .ok ())
    | none =>
      let db1 := db ++ [{ ghl_contact_id := some gid, email := data.email
                          phone := data.phone, source := "ghl"
                          ephysio_patient_id := none }]
      if linkConflict db1 isTarget link then (db1, .error "IntegrityError")
      else
        (updateFirst isTarget (fun r => { r with ephysio_patient_id := link }) db1,
          .ok ())

/-!
## Incremental patient sync (`sync_patients_incremental` in `ghl_accounts/tasks.py`)

Fetches the active Clinic patients (modelled as an `Except`, since
`get_active_patients` can raise), partitions them against the snapshot of
existing `ContactSync` rows keyed by `ephysio_patient_id`, bulk-updates
then bulk-creates (`ignore_conflicts=True`), and pushes the still
unlinked rows to the CRM (`create_ghl_contact`, modelled by the contact
id each successful call yields). Every exception path of the task body is
caught and becomes the `status='error'` result dict.
-/

/-- The structured result dict the task returns (the timestamp field is
wall-clock and not modelled). -/
structure TaskResult where
  status : String
  message : String
  total : Option Nat := none
  created : Option Nat := none
  updated : Option Nat := none
  synced_to_ghl : Option Nat := none
  deriving Repr, DecidableEq

/-- `patient_id in existing_contacts`: some row of the snapshot has this
non-null `ephysio_patient_id`. -/
def hasContactKey (db : List ContactRow) (pid : String) : Bool :=
  db.any (fun r => r.ephysio_patient_id == some pid)

/-- The update branch of the patient loop: every mapped field is
overwritten, `source` through the provenance guard. -/
def updateContactFromPatient (r : ContactRow) (p : EPatient) : ContactRow :=
  { r with
    phone := orNone p.phone
    email := orNone p.email
    first_name := orNone p.firstName
    last_name := orNone p.lastName
    salutation := orNone p.salutation
    street := orNone p.street
    zip := orNone p.zip
    city := orNone p.city
    birth_date := orNone p.birthDate
    sex := p.sex
    source := updatedSource r.source }

/-- The create branch of the patient loop. -/
def contactFromPatient (p : EPatient) : ContactRow :=
  { ephysio_patient_id := some (pyStr p.id)
    phone := orNone p.phone
    email := orNone p.email
    first_name := orNone p.firstName
    last_name := orNone p.lastName
    salutation := orNone p.salutation
    street := orNone p.street
    zip := orNone p.zip
    city := orNone p.city
    birth_date := orNone p.birthDate
    sex := p.sex
    source := "ephysio"
    ghl_contact_id := none }

/-- Valid loop item that lands in the update partition (the snapshot `db`
is the table before the cycle). -/
def isUpdatePatient (db : List ContactRow) (p : EPatient) : Bool :=
  pyStr p.id ≠ "" && hasContactKey db (pyStr p.id)

/-- Valid loop item that lands in the create partition. -/
def isCreatePatient (db : List ContactRow) (p : EPatient) : Bool :=
  pyStr p.id ≠ "" && !hasContactKey db (pyStr p.id)

/-- `bulk_update`: each collected update saves into the row its
dict-snapshot entry points at (the last row with that key). -/
def applyContactUpdates (db : List ContactRow) : List EPatient → List ContactRow
  | [] => db
  | p :: ps =>
    applyContactUpdates
      (updateLast (fun r => r.ephysio_patient_id == some (pyStr p.id))
        (fun r => updateContactFromPatient r p) db) ps

/-- `bulk_create(..., ignore_conflicts=True)`: a row whose unique
`ephysio_patient_id` already exists is silently skipped. -/
def insertContacts (db : List ContactRow) : List EPatient → List ContactRow
  | [] => db
  | p :: ps =>
    insertContacts
      (if hasContactKey db (pyStr p.id) then db else db ++ [contactFromPatient p]) ps

/-- Is the GHL auth usable (`get_ghl_auth` returns a truthy access token
and location id)? -/
def authOk : Option (String × String) → Bool
  | none => false
  | some (tok, loc) => tok ≠ "" && loc ≠ ""

/-- The GHL push loop over the gap-fill list (identified by patient id):
each successful `create_ghl_contact` call (modelled by `ghlCreate`
yielding the extracted contact id) saves the id back into the row.
Returns the `synced_to_ghl` count and the final table. -/
def pushContacts (ghlCreate : Nat → Option String) :
    List String → Nat → Nat → List ContactRow → Nat × List ContactRow
  | [], _, synced, db => (synced, db)
  | pid :: rest, i, synced, db =>
    match ghlCreate i with
    | some gid =>
      pushContacts ghlCreate rest (i + 1) (synced + 1)
        (updateLast (fun r => r.ephysio_patient_id == some pid)
          (fun r => { r with ghl_contact_id := some gid }) db)
    | none => pushContacts ghlCreate rest (i + 1) synced db

/-- The gap-fill list of `sync_patients_incremental`, as patient ids:
updated-but-unlinked rows (kept by the `if c.id` filter), then the
re-fetched newly created rows (`ghl_contact_id__isnull=True`). -/
def patientSyncList (db db2 : List ContactRow) (patients : List EPatient) :
    List String :=
  let toUpdate := patients.filter (isUpdatePatient db)
  let createdIds := (patients.filter (isCreatePatient db)).map (fun p => pyStr p.id)
  (toUpdate.filter (fun p =>
      match lookupContactLast db (pyStr p.id) with
      | some r => isFalsy r.ghl_contact_id
      | none => false)).map (fun p => pyStr p.id)
    ++ (db2.filter (fun r =>
        (match r.ephysio_patient_id with
         | some v => createdIds.contains v
         | none => false) && r.ghl_contact_id == none)).filterMap
      (fun r => r.ephysio_patient_id)

/-- `sync_patients_incremental`. `fetch` is the outcome of
`get_active_patients` (`.error` = the exception it raised), `auth` the
stored GHL credentials pair, `ghlCreate k` the contact id extracted from
the `k`-th successful CRM create (or `none` for any failed/duplicate/
id-less outcome). Returns the structured result dict and the table. -/
def sync_patients_incremental (fetch : Except String (List EPatient))
    (auth : Option (String × String)) (ghlCreate : Nat → Option String)
    (db : List ContactRow) : TaskResult × List ContactRow :=
  match fetch with
  | .error e =>
    ({ status := "error", message := "Error in incremental patient sync: " ++ e }, db)
  | .ok patients =>
    if patients.isEmpty then
      ({ status := "success", message := "No patients found"
         created := some 0, updated := some 0, synced_to_ghl := some 0 }, db)
    else
      let toUpdate := patients.filter (isUpdatePatient db)
      let toCreate := patients.filter (isCreatePatient db)
      let db1 := applyContactUpdates db toUpdate
      let db2 := insertContacts db1 toCreate
      let syncList := patientSyncList db db2 patients
      let pushed :=
        if syncList.isEmpty then (0, db2)
        else if authOk auth then pushContacts ghlCreate syncList 0 0 db2
        else (0, db2)
      ({ status := "success", message := "Patient sync completed"
         total := some patients.length
         created := some toCreate.length
         updated := some toUpdate.length
         synced_to_ghl := some pushed.1 }, pushed.2)

/-!
## Incremental appointment sync (`sync_appointments_incremental` in `ghl_accounts/tasks.py`)

Same shape as the patient sync: fetch the Clinic events, diff against the
`AppointmentSync` snapshot keyed by `ephysio_appointment_id`, resolve each
item's `ghl_contact_id` through the `ContactSync` map, bulk
update/create, then push the unlinked rows through
`create_ghl_appointment` — with a final guard that skips any item still
missing `ghl_contact_id`.
-/

/-- `epoch_ms_to_datetime` (`ephysio/services/appointments.py`): falsy
input (`None` or `0`) yields `None`; the datetime is identified with its
epoch-millisecond value. -/
def epoch_ms_to_datetime : Option Int → Option Int
  | none => none
  | some t => if t = 0 then none else some t

/-- An event dict returned by the e-Physio `listEvents` API, as read by
the appointment sync. `endMs` models the `end` key. -/
structure ApptIn where
  id : Option String := none
  patientId : Option String := none
  start : Option Int := none
  endMs : Option Int := none
  status : Option String := none
  eventTypeId : Option Int := none
  user_id : Option Int := none
  clientId : Option Int := none
  adminInfoId : Option Int := none
  deriving Repr, DecidableEq

/-- The `ghl_contact_id` resolved for a loop item: the linked
`ContactSync` row's CRM id when that row exists and the id is truthy,
`None` otherwise. -/
def apptGhlContactId (contactDb : List ContactRow) (pid : String) : Option String :=
  match lookupContactLast contactDb pid with
  | some c => if isFalsy c.ghl_contact_id then none else c.ghl_contact_id
  | none => none

/-- Some row of the appointment snapshot has this `ephysio_appointment_id`. -/
def hasApptKey (db : List ApptRow) (aid : String) : Bool :=
  db.any (fun r => r.ephysio_appointment_id == some aid)

/-- Last row of `db` with the given `ephysio_appointment_id`. -/
def lookupApptLast (db : List ApptRow) (aid : String) : Option ApptRow :=
  (db.filter (fun r => r.ephysio_appointment_id == some aid)).getLast?

/-- A loop item survives the guards: truthy ids and convertible times. -/
def validAppt (a : ApptIn) : Bool :=
  pyStr a.id ≠ "" && pyStr a.patientId ≠ "" &&
  (epoch_ms_to_datetime a.start).isSome && (epoch_ms_to_datetime a.endMs).isSome

/-- The update branch of the appointment loop. -/
def updateApptFromInput (contactDb : List ContactRow) (r : ApptRow) (a : ApptIn) :
    ApptRow :=
  { r with
    start_time := (epoch_ms_to_datetime a.start).getD 0
    end_time := (epoch_ms_to_datetime a.endMs).getD 0
    status := orNone a.status
    event_type_id := a.eventTypeId
    user_id := a.user_id
    client_id := a.clientId
    admin_info_id := a.adminInfoId
    ephysio_patient_id := pyStr a.patientId
    ghl_contact_id := apptGhlContactId contactDb (pyStr a.patientId)
    source := updatedSource r.source }

/-- The create branch of the appointment loop. -/
def apptFromInput (contactDb : List ContactRow) (a : ApptIn) : ApptRow :=
  { ephysio_appointment_id := some (pyStr a.id)
    ephysio_patient_id := pyStr a.patientId
    ghl_contact_id := apptGhlContactId contactDb (pyStr a.patientId)
    start_time := (epoch_ms_to_datetime a.start).getD 0
    end_time := (epoch_ms_to_datetime a.endMs).getD 0
    status := orNone a.status
    event_type_id := a.eventTypeId
    user_id := a.user_id
    client_id := a.clientId
    admin_info_id := a.adminInfoId
    source := "ephysio"
    ghl_appointment_id := none }

/-- Valid loop item landing in the update partition. -/
def isUpdateAppt (db : List ApptRow) (a : ApptIn) : Bool :=
  validAppt a && hasApptKey db (pyStr a.id)

/-- Valid loop item landing in the create partition. -/
def isCreateAppt (db : List ApptRow) (a : ApptIn) : Bool :=
  validAppt a && !hasApptKey db (pyStr a.id)

/-- `bulk_update` over the collected appointment updates. -/
def applyApptUpdates (contactDb : List ContactRow) (db : List ApptRow) :
    List ApptIn → List ApptRow
  | [] => db
  | a :: as_ =>
    applyApptUpdates contactDb
      (updateLast (fun r => r.ephysio_appointment_id == some (pyStr a.id))
        (fun r => updateApptFromInput contactDb r a) db) as_

/-- `bulk_create(..., ignore_conflicts=True)` over the collected creates. -/
def insertAppts (contactDb : List ContactRow) (db : List ApptRow) :
    List ApptIn → List ApptRow
  | [] => db
  | a :: as_ =>
    insertAppts contactDb
      (if hasApptKey db (pyStr a.id) then db else db ++ [apptFromInput contactDb a])
      as_

/-- The gap-fill list of `sync_appointments_incremental`, as appointment
ids: updated rows still missing a CRM appointment id whose contact link
resolved, then the re-fetched newly created rows with
`ghl_appointment_id__isnull=True, ghl_contact_id__isnull=False`. -/
def apptSyncList (contactDb : List ContactRow) (db db2 : List ApptRow)
    (appts : List ApptIn) : List String :=
  let toUpdate := appts.filter (isUpdateAppt db)
  let createdIds := (appts.filter (isCreateAppt db)).map (fun a => pyStr a.id)
  (toUpdate.filter (fun a =>
      (match lookupApptLast db (pyStr a.id) with
       | some r => isFalsy r.ghl_appointment_id
       | none => false) &&
      !(isFalsy (apptGhlContactId contactDb (pyStr a.patientId))))).map
    (fun a => pyStr a.id)
    ++ (db2.filter (fun r =>
        (match r.ephysio_appointment_id with
         | some v => createdIds.contains v
         | none => false) &&
        r.ghl_appointment_id == none && !(r.ghl_contact_id == none))).filterMap
      (fun r => r.ephysio_appointment_id)

/-- The push loop over the appointment gap-fill list, with the final
`if not appt_sync.ghl_contact_id: continue` guard. Returns the
`synced_to_ghl` count, the rows actually handed to
`create_ghl_appointment` (in call order), and the final table. -/
def pushAppts (ghlCreate : Nat → Option String) :
    List String → Nat → Nat → List ApptRow → List ApptRow →
    Nat × List ApptRow × List ApptRow
  | [], _, synced, dispatched, db => (synced, dispatched.reverse, db)
  | aid :: rest, i, synced, dispatched, db =>
    match lookupApptLast db aid with
    | none => pushAppts ghlCreate rest i synced dispatched db
    | some row =>
      if isFalsy row.ghl_contact_id then
        pushAppts ghlCreate rest i synced dispatched db
      else
        match ghlCreate i with
        | some gid =>
          pushAppts ghlCreate rest (i + 1) (synced + 1) (row :: dispatched)
            (updateLast (fun r => r.ephysio_appointment_id == some aid)
              (fun r => { r with ghl_appointment_id := some gid }) db)
        | none => pushAppts ghlCreate rest (i + 1) synced (row :: dispatched) db

/-- `sync_appointments_incremental`. Returns the structured result, the
final `AppointmentSync` table and the list of rows actually handed to
`create_ghl_appointment`. -/
def sync_appointments_incremental (fetch : Except String (List ApptIn))
    (contactDb : List ContactRow) (auth : Option (String × String))
    (ghlCreate : Nat → Option String) (db : List ApptRow) :
    TaskResult × List ApptRow × List ApptRow :=
  match fetch with
  | .error e =>
    ({ status := "error", message := "Error in incremental appointment sync: " ++ e },
      db, [])
  | .ok appts =>
    if appts.isEmpty then
      ({ status := "success", message := "No appointments found"
         created := some 0, updated := some 0, synced_to_ghl := some 0 }, db, [])
    else
      let toUpdate := appts.filter (isUpdateAppt db)
      let toCreate := appts.filter (isCreateAppt db)
      let db1 := applyApptUpdates contactDb db toUpdate
      let db2 := insertAppts contactDb db1 toCreate
      let syncList := apptSyncList contactDb db db2 appts
      let pushed :=
        if syncList.isEmpty then (0, [], db2)
        else if authOk auth then pushAppts ghlCreate syncList 0 0 [] db2
        else (0, [], db2)
      ({ status := "success", message := "Appointment sync completed"
         total := some appts.length
         created := some toCreate.length
         updated := some toUpdate.length
         synced_to_ghl := some pushed.1 }, pushed.2.2, pushed.2.1)

/-!
## Token refresh (`refresh_ghl_token` in `ghl_accounts/services/contacts.py`)

The stored `GHLAuthCredentials` singleton is mutated and saved only on
the fully successful path; every failure path returns `(False, message)`
first. A JSON field is modelled as `Option (Option α)`: the outer layer
is key presence, the inner one a JSON `null`.
-/

/-- The stored `GHLAuthCredentials` row (`ghl_accounts/models.py`). -/
structure AuthRow where
  access_token : Option String := none
  refresh_token : Option String := none
  expires_in : Option Int := none
  scope : Option String := none
  user_type : Option String := none
  company_id : Option String := none
  location_id : Option String := none
  user_id : Option String := none
  deriving Repr, DecidableEq

/-- The JSON body of a token-endpoint response. Outer `Option` = key
present, inner = value (`none` models JSON `null`). -/
structure TokenJson where
  access_token : Option (Option String) := none
  refresh_token : Option (Option String) := none
  expires_in : Option (Option Int) := none
  scope : Option (Option String) := none
  userType : Option (Option String) := none
  companyId : Option (Option String) := none
  userId : Option (Option String) := none
  locationId : Option (Option String) := none
  deriving Repr, DecidableEq

/-- Outcome of the `requests.post` to the token endpoint; a `.resp` body
of `.error ()` models `response.json()` raising. -/
inductive TokenHttp where
  | resp (status : Nat) (body : Except Unit TokenJson)
  | netExc (msg : String)
  | otherExc (msg : String)
  deriving Repr

/-- `dict.get(key)` on a JSON field. -/
def jGet (f : Option (Option α)) : Option α := f.getD none

/-- `dict.get(key, default)` on a JSON field. -/
def jGetD (f : Option (Option α)) (d : Option α) : Option α := f.getD d

/-- `refresh_ghl_token`: returns the `(success, message)` pair and the
stored credentials row after the call. -/
def refresh_ghl_token (auth? : Option AuthRow) (http : TokenHttp) :
    (Bool × String) × Option AuthRow :=
  match auth? with
  | none => ((false, "No authentication credentials found"), none)
  | some auth =>
    if isFalsy auth.refresh_token then
      ((false, "No refresh token available"), some auth)
    else
      match http with
      | .netExc m => ((false, "Network error: " ++ m), some auth)
      | .otherExc m => ((false, "Unexpected error: " ++ m), some auth)
      | .resp status body =>
        if status ≠ 200 then
          ((false, "Token refresh failed"), some auth)
        else
          match body with
          | .error _ => ((false, "Unexpected error: invalid JSON"), some auth)
          | .ok j =>
            ((true, "Token refreshed successfully"),
              some { auth with
                access_token := jGet j.access_token
                refresh_token := jGetD j.refresh_token auth.refresh_token
                expires_in := jGetD j.expires_in auth.expires_in
                scope := if isFalsy (jGet j.scope) then auth.scope else jGet j.scope
                user_type :=
                  if isFalsy (jGet j.userType) then auth.user_type else jGet j.userType
                company_id :=
                  if isFalsy (jGet j.companyId) then auth.company_id
                  else jGet j.companyId
                user_id :=
                  if isFalsy (jGet j.userId) then auth.user_id else jGet j.userId
                location_id :=
                  if isFalsy (jGet j.locationId) then auth.location_id
                  else jGet j.locationId })

end EPhysio

namespace EPhysio

/-!
## Helper lemmas
-/

theorem splitOnChar_no_sep {c : Char} {xs : List Char} (h : c ∉ xs) :
    splitOnChar c xs = [xs] := by
  induction xs with
  | nil => rfl
  | cons x xs ih =>
    have hx : ¬(x = c) := fun he => h (by simp [he])
    have hm : c ∉ xs := fun hc => h (List.mem_cons_of_mem _ hc)
    simp [splitOnChar, hx, ih hm]

theorem splitOnChar_append {c : Char} {xs ys : List Char} (h : c ∉ xs) :
    splitOnChar c (xs ++ c :: ys) = xs :: splitOnChar c ys := by
  induction xs with
  | nil => simp [splitOnChar]
  | cons x xs ih =>
    have hx : ¬(x = c) := fun he => h (by simp [he])
    have hm : c ∉ xs := fun hc => h (List.mem_cons_of_mem _ hc)
    simp only [List.cons_append, splitOnChar, if_neg hx, List.append_eq, ih hm]

theorem apptLoop_attempts_le {responses : Nat → Attempt} :
    ∀ fuel attempt, attempt + fuel ≤ MAX_RETRIES →
      (apptLoop responses attempt fuel).attempts ≤ MAX_RETRIES := by
  intro fuel
  induction fuel with
  | zero => intro attempt _; simp [apptLoop]
  | succ fuel ih =>
    intro attempt h
    rw [apptLoop]
    cases responses attempt with
    | ok _ => simpa using by omega
    | http status _ =>
      by_cases hr : status ≥ 500 ∧ attempt < MAX_RETRIES - 1
      · simpa [hr] using ih (attempt + 1) (by omega)
      · simpa [hr] using by omega
    | network _ =>
      by_cases hr : attempt < MAX_RETRIES - 1
      · simpa [hr] using ih (attempt + 1) (by omega)
      · simpa [hr] using by omega
    | exc _ => simpa using by omega

/-- Structure eta on the character-list view. -/
theorem strMk_data (s : String) : String.mk s.data = s := rfl

instance {ε α : Type} [DecidableEq ε] [DecidableEq α] : DecidableEq (Except ε α) :=
  fun a b =>
    match a, b with
    | .ok x, .ok y =>
      if h : x = y then isTrue (by rw [h]) else isFalse (by simp [h])
    | .error x, .error y =>
      if h : x = y then isTrue (by rw [h]) else isFalse (by simp [h])
    | .ok _, .error _ => isFalse (by simp)
    | .error _, .ok _ => isFalse (by simp)

/-- `zfill` is the identity when the string already fills the width. -/
theorem zfill_eq_self {s : String} {w : Nat} (h : s.data.length = w) :
    zfill s w = s := by
  simp only [zfill, h, Nat.sub_self, List.replicate_zero, List.nil_append]

/-!
## Claim theorems
-/

/-- C5: composing the Clinic-facing `normalize_phone` with the CRM-facing
`validate_and_clean_phone` on `"+41 79 123 45 67"` yields
`"+41791234567"`, and `validate_and_clean_phone` applied directly to
`"0791234567"` yields the same string. -/
theorem c5_phone_round_trip :
    validate_and_clean_phone (normalize_phone (some "+41 79 123 45 67")) =
      some "+41791234567" ∧
    validate_and_clean_phone (some "0791234567") = some "+41791234567" := by
  decide

set_option maxRecDepth 6000 in
/-- C1 (evidence for the code bug): with `R = 10` and the logical clock
started at 1 second, the sequential run of 100 `RateLimiter(10).wait()`
calls — a valid execution of the dispatcher — admits the first item at
`t = 1 s` and the hundredth at `t = 1.9 s`: all 100 admissions fall in a
window of `0.9 s < 9.9 s`, a sustained rate of about 100 admissions per
second, because `min_interval` is `1/R` seconds while each of the `R`
ring slots recycles every `R` admissions. -/
theorem c1_rate_limiter_burst :
    (rlTimestamps 10 100 (mkRat 1 1)).length = 100 ∧
    (rlTimestamps 10 100 (mkRat 1 1))[0]? = some (mkRat 1 1) ∧
    (rlTimestamps 10 100 (mkRat 1 1))[99]? = some (mkRat 19 10) ∧
    (mkRat 19 10 : ℚ) - mkRat 1 1 < mkRat 99 10 := by
  have h1 : (rlIter 10 1 (rlInit 10 (mkRat 1 1))).clock = mkRat 1 1 := by decide
  have h50 : rlIter 10 50 (rlInit 10 (mkRat 1 1)) =
      { last := List.replicate 10 (mkRat 14 10), index := 0
        clock := mkRat 14 10 } := by decide
  have h100 : (rlIter 10 100 (rlInit 10 (mkRat 1 1))).clock = mkRat 19 10 := by
    have e : (100 : Nat) = 50 + 50 := by norm_num
    rw [e, rlIter_add, h50]
    decide
  have e1 : mkRat 1 1 = (1 : ℚ) := by rw [Rat.mkRat_eq_div]; norm_num
  have e19 : mkRat 19 10 = (19 / 10 : ℚ) := by rw [Rat.mkRat_eq_div]; norm_num
  refine ⟨by simp [rlTimestamps], ?_, ?_, ?_⟩
  · simp only [rlTimestamps, List.getElem?_map, List.getElem?_range]
    norm_num
    rw [← e1]
    exact h1
  · simp only [rlTimestamps, List.getElem?_map, List.getElem?_range]
    norm_num
    rw [← e19, ← e1]
    exact h100
  · rw [Rat.mkRat_eq_div, Rat.mkRat_eq_div, Rat.mkRat_eq_div]
    norm_num

/-- C3 (counterexample): an outbound CRM contact write
(`create_ghl_contact`) that receives HTTP 503 is attempted exactly once —
not the 3 attempts the claim states for a write receiving 503 on every
attempt — because that function has no retry loop. -/
theorem c3_contact_write_not_retried :
    create_ghl_contact_call (fun _ => .http 503 "Service Unavailable") =
      { success := false, statusCode := some 503, attempts := 1, delays := [] } ∧
    ((create_ghl_contact_call (fun _ => .http 503 "Service Unavailable")).attempts = 3
      → False) := by
  decide

/-- C3 (amended): the retry policy applies to CRM appointment creation
(`create_ghl_appointment`) only: at most 3 attempts; HTTP 422 (and every
4xx) terminates after exactly one attempt classified as error; HTTP 503 on
all attempts yields exactly 3 attempts, the linear backoff sleeps
`2·1, 2·2` seconds, then the error classification. CRM contact writes
(`create_ghl_contact`) are attempted exactly once whatever the response. -/
theorem c3_retry_policy :
    (∀ responses, (create_ghl_appointment_loop responses).attempts ≤ 3) ∧
    create_ghl_appointment_loop (fun _ => .http 422 "Unprocessable Entity") =
      { success := false, statusCode := some 422, attempts := 1, delays := [] } ∧
    create_ghl_appointment_loop (fun _ => .http 503 "Service Unavailable") =
      { success := false, statusCode := some 503, attempts := 3, delays := [2, 4] } ∧
    (∀ responses status msg, status < 500 → responses 0 = Attempt.http status msg →
      create_ghl_appointment_loop responses =
        { success := false, statusCode := some status, attempts := 1, delays := [] }) ∧
    (∀ responses, (create_ghl_contact_call responses).attempts = 1) := by
  refine ⟨fun r => apptLoop_attempts_le MAX_RETRIES 0 (by norm_num),
    by decide, by decide, ?_, ?_⟩
  · intro r status msg hlt h0
    simp only [create_ghl_appointment_loop, MAX_RETRIES, apptLoop, h0]
    rw [if_neg (by omega)]
  · intro r
    cases h : r 0 <;> simp [create_ghl_contact_call, h]

/-- C6 (counterexample): a malformed three-part birth date such as
`"aa.bb.cccc"` is not omitted — `build_ghl_contact_payload` transmits it
reformatted as the (malformed) `dateOfBirth` value `"cccc-bb-aa"`. -/
theorem c6_malformed_birth_date_transmitted :
    dobField (some "aa.bb.cccc") = some "cccc-bb-aa" ∧
    isIsoDateShape "cccc-bb-aa" = false := by
  decide

/-- C6 (amended): the payload builder converts a birth date stored as
`DD.MM.YYYY` into the `YYYY-MM-DD` `dateOfBirth` field; the field is
omitted exactly when the stored value is empty/null or does not split on
`'.'` into exactly three parts — a three-part malformed value is
transmitted reformatted, not omitted. -/
theorem c6_birth_date_conversion :
    (∀ d m y : String,
      d.data.length = 2 → m.data.length = 2 →
      '.' ∉ d.data → '.' ∉ m.data → '.' ∉ y.data →
      dobField (some (strAppend d (strAppend "." (strAppend m (strAppend "." y))))) =
        some (strAppend y (strAppend "-" (strAppend m (strAppend "-" d))))) ∧
    (∀ b : Option String,
      (dobField b).isSome = true ↔
        isFalsy b = false ∧ (splitOnChar '.' ((b.getD "").data)).length = 3) := by
  constructor
  · intro d m y hd hm hdd hmd hyd
    have hdata : (strAppend d (strAppend "." (strAppend m (strAppend "." y)))).data =
        d.data ++ '.' :: (m.data ++ '.' :: y.data) := by
      simp [strAppend]
    have hne : strAppend d (strAppend "." (strAppend m (strAppend "." y))) ≠ "" := by
      intro he
      have := congrArg String.data he
      rw [hdata] at this
      simp at this
    rw [dobField, if_neg (by simp [isFalsy, hne])]
    simp only [Option.getD_some, hdata, splitOnChar_append hdd, splitOnChar_append hmd,
      splitOnChar_no_sep hyd, List.map_cons, List.map_nil, strMk_data]
    rw [zfill_eq_self hm, zfill_eq_self hd]
  · intro b
    match b with
    | none => simp [dobField, isFalsy]
    | some s =>
      by_cases hs : s = ""
      · subst hs
        constructor
        · intro h; simp [dobField, isFalsy] at h
        · rintro ⟨h, _⟩; simp [isFalsy] at h
      · rw [dobField, if_neg (by simp [isFalsy, hs])]
        simp only [isFalsy, Option.getD_some]
        rcases hsplit : splitOnChar '.' s.data with _ | ⟨a, _ | ⟨c, _ | ⟨e, _ | ⟨f, t⟩⟩⟩⟩ <;>
          simp [hs]

/-- C10: the incremental sync tasks preserve record provenance: a row
whose `source` is `"ghl"` keeps `source = "ghl"` through the update
branch of either task, a row is marked `"ephysio"` only when its source
was empty or already `"ephysio"`, and any non-empty `source` is left
unchanged. -/
theorem c10_source_provenance :
    (∀ (r : ContactRow) (p : EPatient), r.source = "ghl" →
      (updateContactFromPatient r p).source = "ghl") ∧
    (∀ (cdb : List ContactRow) (r : ApptRow) (a : ApptIn), r.source = "ghl" →
      (updateApptFromInput cdb r a).source = "ghl") ∧
    (∀ (r : ContactRow) (p : EPatient),
      (updateContactFromPatient r p).source = "ephysio" →
      r.source = "" ∨ r.source = "ephysio") ∧
    (∀ (cdb : List ContactRow) (r : ApptRow) (a : ApptIn),
      (updateApptFromInput cdb r a).source = "ephysio" →
      r.source = "" ∨ r.source = "ephysio") ∧
    (∀ (r : ContactRow) (p : EPatient), r.source ≠ "" →
      (updateContactFromPatient r p).source = r.source) ∧
    (∀ (cdb : List ContactRow) (r : ApptRow) (a : ApptIn), r.source ≠ "" →
      (updateApptFromInput cdb r a).source = r.source) := by
  have key : ∀ s : String, s ≠ "" → updatedSource s = s := by
    intro s hs
    by_cases he : s = "ephysio"
    · rw [updatedSource, if_pos (Or.inr he), he]
    · rw [updatedSource, if_neg (by tauto)]
  have mark : ∀ s : String, updatedSource s = "ephysio" → s = "" ∨ s = "ephysio" := by
    intro s h
    rw [updatedSource] at h
    split at h
    · assumption
    · exact Or.inr h
  refine ⟨?_, ?_, ?_, ?_, ?_, ?_⟩
  · intro r p h
    show updatedSource r.source = "ghl"
    rw [h]; decide
  · intro cdb r a h
    show updatedSource r.source = "ghl"
    rw [h]; decide
  · intro r p h; exact mark r.source h
  · intro cdb r a h; exact mark r.source h
  · intro r p h; exact key r.source h
  · intro cdb r a h; exact key r.source h

/-- Witness for `c10_source_provenance` at a concrete `"ghl"`-sourced
row and a concrete patient. -/
theorem c10_source_provenance_witness :
    (updateContactFromPatient { source := "ghl" } {}).source = "ghl" :=
  c10_source_provenance.1 { source := "ghl" } {} rfl

/-- Witness for `c6_birth_date_conversion` at the concrete well-formed
birth date `"07.03.1990"`. -/
theorem c6_birth_date_conversion_witness :
    dobField (some (strAppend "07" (strAppend "."
        (strAppend "03" (strAppend "." "1990"))))) =
      some (strAppend "1990" (strAppend "-" (strAppend "03" (strAppend "-" "07")))) :=
  c6_birth_date_conversion.1 "07" "03" "1990" (by decide) (by decide) (by decide)
    (by decide) (by decide)

/-- Witness for `c3_retry_policy` at a concrete HTTP 409 response
sequence (a 4xx, terminal after one attempt). -/
theorem c3_retry_policy_witness :
    create_ghl_appointment_loop (fun _ => .http 409 "Conflict") =
      { success := false, statusCode := some 409, attempts := 1, delays := [] } :=
  c3_retry_policy.2.2.2.1 (fun _ => .http 409 "Conflict") 409 "Conflict"
    (by norm_num) rfl

theorem updateFirst_append_last {p : α → Bool} {f : α → α} {l : List α} {x : α}
    (hl : ∀ a ∈ l, p a = false) (hx : p x = true) :
    updateFirst p f (l ++ [x]) = l ++ [f x] := by
  induction l with
  | nil => simp [updateFirst, hx]
  | cons a as ih =>
    rw [List.cons_append, updateFirst, if_neg (by simp [hl a (by simp)]),
      ih (fun b hb => hl b (List.mem_cons_of_mem _ hb))]
    rfl

theorem any_congr_of_mem {p q : α → Bool} {l : List α} (h : ∀ a ∈ l, p a = q a) :
    l.any p = l.any q := by
  induction l with
  | nil => rfl
  | cons x xs ih =>
    simp only [List.any_cons, h x (List.mem_cons_self x xs),
      ih (fun a ha => h a (List.mem_cons_of_mem _ ha))]

/-- C2 (counterexample): a `ContactCreate` event for the unknown CRM
contact id `"X"` with phone `"0791234567"`, against a table holding one
unlinked Clinic-sourced row with the matching phone `"+41791234567"` (and
a Clinic patient list containing that patient), leaves a table of TWO
rows: a new `source="ghl"` row is appended, the existing Clinic-sourced
row is left without any `ghl_contact_id`, and the attempt to link the new
row to patient `"42"` raises (uniqueness of `ephysio_patient_id`) — the
claim's "updates that existing row (setting its ghl_contact_id) and
creates no new ContactSync row" fails. -/
theorem c2_webhook_creates_new_row :
    handle_contact_event
        [{ ephysio_patient_id := some "42", phone := some "+41791234567"
           source := "ephysio" }]
        [{ id := some "42", phone := some "+41791234567" }]
        { id := some "X", phone := some "0791234567" } none =
      ([{ ephysio_patient_id := some "42", phone := some "+41791234567"
          source := "ephysio" },
        { ghl_contact_id := some "X", phone := some "0791234567"
          source := "ghl", ephysio_patient_id := none }],
       .error "IntegrityError") ∧
    (handle_contact_event
        [{ ephysio_patient_id := some "42", phone := some "+41791234567"
           source := "ephysio" }]
        [{ id := some "42", phone := some "+41791234567" }]
        { id := some "X", phone := some "0791234567" } none).1.length = 2 ∧
    ((handle_contact_event
        [{ ephysio_patient_id := some "42", phone := some "+41791234567"
           source := "ephysio" }]
        [{ id := some "42", phone := some "+41791234567" }]
        { id := some "X", phone := some "0791234567" } none).1.map
      ContactRow.ghl_contact_id)[0]? = some none := by
  decide

/-- C2 (amended): on a `ContactCreate` event whose CRM contact id is
unknown, the handler always appends a NEW `ContactSync` row with
`source="ghl"` — the pre-existing Clinic-sourced row is never updated and
gains no CRM contact id. The normalized-phone match runs against the
Clinic system's patients; on a match the handler tries to write the
matched patient's id into the NEW row: when another row already keys that
patient (the claim's scenario) the save raises the uniqueness error and
the new row stays unlinked, otherwise the new row is linked. -/
theorem c2_webhook_phone_match :
    ∀ (db : List ContactRow) (patients : List EPatient) (data : WebhookContact)
      (cr : Option String) (gid : String) (pat : EPatient),
      data.id = some gid → gid ≠ "" →
      db.find? (fun r => r.ghl_contact_id == some gid) = none →
      find_patient_by_phone data.phone patients = some pat →
      ((pat.id.isSome = true →
        db.any (fun r => r.ephysio_patient_id == pat.id) = true →
        handle_contact_event db patients data cr =
          (db ++ [{ ghl_contact_id := some gid, email := data.email
                    phone := data.phone, source := "ghl"
                    ephysio_patient_id := none }],
           .error "IntegrityError")) ∧
       (¬(pat.id.isSome = true ∧
          db.any (fun r => r.ephysio_patient_id == pat.id) = true) →
        handle_contact_event db patients data cr =
          (db ++ [{ ghl_contact_id := some gid, email := data.email
                    phone := data.phone, source := "ghl"
                    ephysio_patient_id := pat.id }],
           .ok ()))) := by
  intro db patients data cr gid pat hid hgid hfind hpat
  have hfalsy : isFalsy (some gid) = false := by simp [isFalsy, hgid]
  have hmem : ∀ r ∈ db, (r.ghl_contact_id == some gid) = false := by
    intro r hr
    have := List.find?_eq_none.mp hfind r hr
    simpa using this
  have hany : ∀ x : Option String,
      (db ++ [({ ghl_contact_id := some gid, email := data.email
                 phone := data.phone, source := "ghl"
                 ephysio_patient_id := none } : ContactRow)]).any
        (fun r => !(r.ghl_contact_id == some gid) && r.ephysio_patient_id == x) =
      db.any (fun r => r.ephysio_patient_id == x) := by
    intro x
    rw [List.any_append]
    have h2 : ([({ ghl_contact_id := some gid, email := data.email
                   phone := data.phone, source := "ghl"
                   ephysio_patient_id := none } : ContactRow)]).any
        (fun r => !(r.ghl_contact_id == some gid) && r.ephysio_patient_id == x) =
        false := by
      simp
    rw [h2, Bool.or_false]
    exact any_congr_of_mem (fun r hr => by rw [hmem r hr]; simp)
  constructor
  · intro hsome hconf
    simp only [handle_contact_event, hid, hfalsy, Bool.false_eq_true, if_false,
      Option.getD_some, hfind, linkedEphysioId, hpat]
    rw [if_pos (by rw [linkConflict, hany pat.id]; simp [hsome, hconf])]
  · intro hnc
    simp only [handle_contact_event, hid, hfalsy, Bool.false_eq_true, if_false,
      Option.getD_some, hfind, linkedEphysioId, hpat]
    rw [if_neg (by
      rw [linkConflict, hany pat.id]
      intro hcontra
      exact hnc (by simpa using hcontra))]
    rw [updateFirst_append_last hmem (by simp)]

/-- Witness for `c2_webhook_phone_match` at a concrete event and table
(no uniqueness conflict: the matched patient keys no existing row). -/
theorem c2_webhook_phone_match_witness :
    handle_contact_event
        []
        [{ id := some "7", phone := some "+41781112233" }]
        { id := some "Y", phone := some "0781112233", email := some "a@b.ch" }
        none =
      ([{ ghl_contact_id := some "Y", email := some "a@b.ch"
          phone := some "0781112233", source := "ghl"
          ephysio_patient_id := some "7" }],
       .ok ()) :=
  (c2_webhook_phone_match [] _ _ none "Y"
      { id := some "7", phone := some "+41781112233" }
      rfl (by decide) (by decide) (by decide)).2 (by decide)

/-- C7: the incremental patient sync returns a structured result dict
(status `success` or `error`, with counts on success) for every fetch
outcome; when the initial Clinic fetch raises, it returns the error
result and leaves the table untouched. -/
theorem c7_structured_result :
    ∀ (fetch : Except String (List EPatient)) (auth : Option (String × String))
      (g : Nat → Option String) (db : List ContactRow),
      ((sync_patients_incremental fetch auth g db).1.status = "success" ∨
        (sync_patients_incremental fetch auth g db).1.status = "error") ∧
      (∀ e, fetch = .error e →
        (sync_patients_incremental fetch auth g db).1.status = "error" ∧
        (sync_patients_incremental fetch auth g db).2 = db) ∧
      (∀ ps, fetch = .ok ps →
        (sync_patients_incremental fetch auth g db).1.status = "success" ∧
        ((sync_patients_incremental fetch auth g db).1.created).isSome = true ∧
        ((sync_patients_incremental fetch auth g db).1.updated).isSome = true ∧
        ((sync_patients_incremental fetch auth g db).1.synced_to_ghl).isSome
          = true) := by
  intro fetch auth g db
  match fetch with
  | .error e => simp [sync_patients_incremental]
  | .ok ps =>
    by_cases hps : ps.isEmpty <;> simp [sync_patients_incremental, hps]

/-!
## Lemmas for the idempotence of the patient sync (C4)
-/

theorem any_updateFirst {p q : α → Bool} {f : α → α} (hf : ∀ a, q (f a) = q a)
    (l : List α) : (updateFirst p f l).any q = l.any q := by
  induction l with
  | nil => rfl
  | cons x xs ih =>
    rw [updateFirst]
    split
    · simp [List.any_cons, hf]
    · simp [List.any_cons, ih]

theorem any_updateLast {p q : α → Bool} {f : α → α} (hf : ∀ a, q (f a) = q a)
    (l : List α) : (updateLast p f l).any q = l.any q := by
  rw [updateLast, ← List.any_reverse, List.reverse_reverse, any_updateFirst hf,
    List.any_reverse]

theorem length_updateFirst (p : α → Bool) (f : α → α) (l : List α) :
    (updateFirst p f l).length = l.length := by
  induction l with
  | nil => rfl
  | cons x xs ih =>
    rw [updateFirst]
    split
    · simp
    · simp [ih]

theorem length_updateLast (p : α → Bool) (f : α → α) (l : List α) :
    (updateLast p f l).length = l.length := by
  rw [updateLast, List.length_reverse, length_updateFirst, List.length_reverse]

theorem hasContactKey_updateLast (f : ContactRow → ContactRow)
    (hf : ∀ r, (f r).ephysio_patient_id = r.ephysio_patient_id)
    (p : ContactRow → Bool) (db : List ContactRow) (pid : String) :
    hasContactKey (updateLast p f db) pid = hasContactKey db pid :=
  any_updateLast (fun r => by simp [hf r]) db

theorem hasContactKey_applyContactUpdates (l : List EPatient) (db : List ContactRow)
    (pid : String) :
    hasContactKey (applyContactUpdates db l) pid = hasContactKey db pid := by
  induction l generalizing db with
  | nil => rfl
  | cons a l ih =>
    rw [applyContactUpdates, ih,
      hasContactKey_updateLast (fun r => updateContactFromPatient r a)
        (fun r => rfl)]

theorem length_applyContactUpdates (l : List EPatient) (db : List ContactRow) :
    (applyContactUpdates db l).length = db.length := by
  induction l generalizing db with
  | nil => rfl
  | cons a l ih => rw [applyContactUpdates, ih, length_updateLast]

theorem hasContactKey_insertContacts_mono {l : List EPatient} {db : List ContactRow}
    {pid : String} (h : hasContactKey db pid = true) :
    hasContactKey (insertContacts db l) pid = true := by
  induction l generalizing db with
  | nil => exact h
  | cons a l ih =>
    rw [insertContacts]
    by_cases hk : hasContactKey db (pyStr a.id) = true
    · rw [if_pos hk]; exact ih h
    · rw [if_neg hk]
      exact ih (by simp [hasContactKey, List.any_append] at h ⊢; exact Or.inl h)

theorem hasContactKey_insertContacts_of_mem {l : List EPatient} {db : List ContactRow}
    {pid : String} (h : pid ∈ l.map (fun p => pyStr p.id)) :
    hasContactKey (insertContacts db l) pid = true := by
  induction l generalizing db with
  | nil => simp at h
  | cons a l ih =>
    rw [insertContacts]
    rcases (by simpa using h : pid = pyStr a.id ∨ pid ∈ l.map (fun p => pyStr p.id))
      with h1 | h2
    · by_cases hk : hasContactKey db (pyStr a.id) = true
      · rw [if_pos hk]
        exact hasContactKey_insertContacts_mono (h1 ▸ hk)
      · rw [if_neg hk]
        apply hasContactKey_insertContacts_mono
        simp [hasContactKey, List.any_append, contactFromPatient, h1]
    · by_cases hk : hasContactKey db (pyStr a.id) = true
      · rw [if_pos hk]; exact ih h2
      · rw [if_neg hk]; exact ih h2

theorem length_insertContacts_nil (db : List ContactRow) :
    insertContacts db [] = db := rfl

theorem hasContactKey_pushContacts (g : Nat → Option String) (pids : List String)
    (i synced : Nat) (db : List ContactRow) (pid : String) :
    hasContactKey (pushContacts g pids i synced db).2 pid = hasContactKey db pid := by
  induction pids generalizing i synced db with
  | nil => rfl
  | cons x rest ih =>
    rw [pushContacts]
    cases g i with
    | some gid =>
      rw [ih,
        hasContactKey_updateLast (fun r => { r with ghl_contact_id := some gid })
          (fun r => rfl)]
    | none => rw [ih]

theorem length_pushContacts (g : Nat → Option String) (pids : List String)
    (i synced : Nat) (db : List ContactRow) :
    (pushContacts g pids i synced db).2.length = db.length := by
  induction pids generalizing i synced db with
  | nil => rfl
  | cons x rest ih =>
    rw [pushContacts]
    cases g i with
    | some gid => rw [ih, length_updateLast]
    | none => rw [ih]

/-- The `created` count reported by a run on a nonempty fetch. -/
theorem sync_patients_created (patients : List EPatient)
    (auth : Option (String × String)) (g : Nat → Option String)
    (db : List ContactRow) (hne : patients.isEmpty = false) :
    (sync_patients_incremental (.ok patients) auth g db).1.created =
      some (patients.filter (isCreatePatient db)).length := by
  simp only [sync_patients_incremental, hne, Bool.false_eq_true, if_false]

/-- The table a run on a nonempty fetch leaves behind has the same keys
as the bulk-persisted table. -/
theorem sync_patients_hasKey (patients : List EPatient)
    (auth : Option (String × String)) (g : Nat → Option String)
    (db : List ContactRow) (pid : String) (hne : patients.isEmpty = false) :
    hasContactKey (sync_patients_incremental (.ok patients) auth g db).2 pid =
      hasContactKey
        (insertContacts (applyContactUpdates db (patients.filter (isUpdatePatient db)))
          (patients.filter (isCreatePatient db))) pid := by
  simp only [sync_patients_incremental, hne, Bool.false_eq_true, if_false]
  split
  · rfl
  · split
    · rw [hasContactKey_pushContacts]
    · rfl

/-- The table a run on a nonempty fetch leaves behind has the same length
as the bulk-persisted table. -/
theorem sync_patients_length (patients : List EPatient)
    (auth : Option (String × String)) (g : Nat → Option String)
    (db : List ContactRow) (hne : patients.isEmpty = false) :
    (sync_patients_incremental (.ok patients) auth g db).2.length =
      (insertContacts (applyContactUpdates db (patients.filter (isUpdatePatient db)))
        (patients.filter (isCreatePatient db))).length := by
  simp only [sync_patients_incremental, hne, Bool.false_eq_true, if_false]
  split
  · rfl
  · split
    · rw [length_pushContacts]
    · rfl

/-- After one run, every fetched patient with a truthy id keys a row. -/
theorem sync_patients_covers (patients : List EPatient)
    (auth : Option (String × String)) (g : Nat → Option String)
    (db : List ContactRow) (p : EPatient) (hp : p ∈ patients)
    (hid : pyStr p.id ≠ "") :
    hasContactKey (sync_patients_incremental (.ok patients) auth g db).2
      (pyStr p.id) = true := by
  have hne : patients.isEmpty = false := by
    cases patients
    · simp at hp
    · rfl
  rw [sync_patients_hasKey patients auth g db (pyStr p.id) hne]
  by_cases hk : hasContactKey db (pyStr p.id) = true
  · exact hasContactKey_insertContacts_mono
      (by rw [hasContactKey_applyContactUpdates]; exact hk)
  · apply hasContactKey_insertContacts_of_mem
    simp only [List.mem_map]
    exact ⟨p, List.mem_filter.mpr ⟨hp, by simp [isCreatePatient, hid, hk]⟩, rfl⟩

/-- C4: running the incremental patient sync twice on an unchanged fetched
Clinic dataset produces zero creates on the second run — every fetched
patient already keys a row after the first run, so the whole dataset lands
in the update partition — and the second run adds no `ContactSync` rows. -/
theorem c4_second_run_creates_nothing :
    ∀ (patients : List EPatient) (auth auth' : Option (String × String))
      (g g' : Nat → Option String) (db : List ContactRow),
      (sync_patients_incremental (.ok patients) auth' g'
          (sync_patients_incremental (.ok patients) auth g db).2).1.created =
        some 0 ∧
      (sync_patients_incremental (.ok patients) auth' g'
          (sync_patients_incremental (.ok patients) auth g db).2).2.length =
        (sync_patients_incremental (.ok patients) auth g db).2.length := by
  intro patients auth auth' g g' db
  by_cases hne : patients.isEmpty = true
  · have he : patients = [] := List.isEmpty_iff.mp hne
    subst he
    constructor <;> simp [sync_patients_incremental]
  · have hne' : patients.isEmpty = false := by simpa using hne
    have hfilter : patients.filter
        (isCreatePatient (sync_patients_incremental (.ok patients) auth g db).2) =
        [] := by
      rw [List.filter_eq_nil_iff]
      intro p hp hcp
      by_cases hid : pyStr p.id = ""
      · simp [isCreatePatient, hid] at hcp
      · have := sync_patients_covers patients auth g db p hp hid
        simp [isCreatePatient, hid, this] at hcp
    constructor
    · rw [sync_patients_created _ auth' g' _ hne', hfilter]
      rfl
    · rw [sync_patients_length _ auth' g' _ hne', hfilter,
        length_insertContacts_nil, length_applyContactUpdates]

/-!
## Lemmas for the appointment dispatch guard (C8)
-/

theorem pushAppts_dispatched_sound (g : Nat → Option String) :
    ∀ (aids : List String) (i synced : Nat) (acc db : List ApptRow),
      (∀ r ∈ acc, isFalsy r.ghl_contact_id = false) →
      ∀ r ∈ (pushAppts g aids i synced acc db).2.1,
        isFalsy r.ghl_contact_id = false := by
  intro aids
  induction aids with
  | nil =>
    intro i synced acc db hacc r hr
    rw [pushAppts] at hr
    exact hacc r (by simpa using hr)
  | cons aid rest ih =>
    intro i synced acc db hacc r hr
    rw [pushAppts] at hr
    split at hr
    · exact ih _ _ _ _ hacc r hr
    · rename_i row _
      split at hr
      · exact ih _ _ _ _ hacc r hr
      · rename_i hrow
        have hrow' : isFalsy row.ghl_contact_id = false := by
          simpa using hrow
        have hacc' : ∀ x ∈ row :: acc, isFalsy x.ghl_contact_id = false := by
          intro x hx
          rcases List.mem_cons.mp hx with rfl | hx
          · exact hrow'
          · exact hacc x hx
        split at hr
        · exact ih _ _ _ _ hacc' r hr
        · exact ih _ _ _ _ hacc' r hr

/-- C8: the appointment sync never hands `create_ghl_appointment` an
appointment without a CRM contact id: every dispatched row satisfies the
push precondition; a patient id with no linked (or an unlinked) contact
resolves to `ghl_contact_id = None`; and the create branch persists such
an appointment with `ghl_contact_id = None`. -/
theorem c8_push_requires_contact :
    (∀ (fetch : Except String (List ApptIn)) (contactDb : List ContactRow)
       (auth : Option (String × String)) (g : Nat → Option String)
       (db : List ApptRow) (r : ApptRow),
       r ∈ (sync_appointments_incremental fetch contactDb auth g db).2.2 →
       isFalsy r.ghl_contact_id = false) ∧
    (∀ (contactDb : List ContactRow) (pid : String),
       (∀ c, lookupContactLast contactDb pid = some c →
         isFalsy c.ghl_contact_id = true) →
       apptGhlContactId contactDb pid = none) ∧
    (∀ (contactDb : List ContactRow) (a : ApptIn),
       apptGhlContactId contactDb (pyStr a.patientId) = none →
       (apptFromInput contactDb a).ghl_contact_id = none) := by
  refine ⟨?_, ?_, ?_⟩
  · intro fetch contactDb auth g db r hr
    match fetch with
    | .error e => simp [sync_appointments_incremental] at hr
    | .ok appts =>
      by_cases hne : appts.isEmpty = true
      · simp [sync_appointments_incremental, hne] at hr
      · have hne' : appts.isEmpty = false := by simpa using hne
        simp only [sync_appointments_incremental, hne', Bool.false_eq_true,
          if_false] at hr
        split at hr
        · simp at hr
        · split at hr
          · exact pushAppts_dispatched_sound g _ 0 0 [] _ (by simp) r hr
          · simp at hr
  · intro contactDb pid hc
    rw [apptGhlContactId]
    cases hl : lookupContactLast contactDb pid with
    | none => rfl
    | some c => simp [hc c hl]
  · intro contactDb a h
    simp [apptFromInput, h]

/-- Witness for `c8_push_requires_contact`: a concrete run that
dispatches one appointment (linked contact present) hands a row with a
non-null CRM contact id to the create call. -/
theorem c8_push_requires_contact_witness :
    isFalsy ({ ephysio_appointment_id := some "A1", ephysio_patient_id := "42"
               ghl_contact_id := some "C", start_time := 100, end_time := 200
               source := "ephysio" } : ApptRow).ghl_contact_id = false :=
  c8_push_requires_contact.1
    (.ok [{ id := some "A1", patientId := some "42", start := some 100
            endMs := some 200 }])
    [{ ephysio_patient_id := some "42", ghl_contact_id := some "C"
       source := "ephysio" }]
    (some ("t", "l")) (fun _ => some "GA") [] _ (by decide)

/-- C9: every failure mode of `refresh_ghl_token` — no stored
credentials, missing refresh token, non-200 response, network error or a
body that fails to parse — returns `(False, message)` and leaves the
stored credentials row unchanged; a successful refresh whose response
omits `refresh_token` keeps the previously stored one. -/
theorem c9_token_refresh :
    (∀ h, refresh_ghl_token none h =
      ((false, "No authentication credentials found"), none)) ∧
    (∀ (a : AuthRow) (h : TokenHttp),
      (refresh_ghl_token (some a) h).1.1 = false →
      (refresh_ghl_token (some a) h).2 = some a) ∧
    (∀ (a : AuthRow) (h : TokenHttp), isFalsy a.refresh_token = true →
      (refresh_ghl_token (some a) h).1.1 = false) ∧
    (∀ (a : AuthRow) (m : String),
      (refresh_ghl_token (some a) (.netExc m)).1.1 = false) ∧
    (∀ (a : AuthRow) (s : Nat) (b : Except Unit TokenJson), s ≠ 200 →
      (refresh_ghl_token (some a) (.resp s b)).1.1 = false) ∧
    (∀ (a : AuthRow),
      (refresh_ghl_token (some a) (.resp 200 (.error ()))).1.1 = false) ∧
    (∀ (a : AuthRow) (j : TokenJson), isFalsy a.refresh_token = false →
      j.refresh_token = none →
      (refresh_ghl_token (some a) (.resp 200 (.ok j))).1.1 = true ∧
      Option.map AuthRow.refresh_token
          (refresh_ghl_token (some a) (.resp 200 (.ok j))).2 =
        some a.refresh_token) := by
  refine ⟨fun h => rfl, ?_, ?_, ?_, ?_, ?_, ?_⟩
  · intro a h hfail
    by_cases hrt : isFalsy a.refresh_token = true
    · simp [refresh_ghl_token.eq_def, hrt]
    · rw [refresh_ghl_token.eq_def] at hfail ⊢
      simp only [hrt, Bool.false_eq_true, if_false] at hfail ⊢
      cases h with
      | netExc m => rfl
      | otherExc m => rfl
      | resp s b =>
        by_cases hs : s = 200
        · subst hs
          simp only [ne_eq, not_true_eq_false, if_false] at hfail ⊢
          cases b with
          | error u => rfl
          | ok j => simp at hfail
        · simp [hs]
  · intro a h hrt
    by_cases hn : a.refresh_token = none
    · simp [refresh_ghl_token.eq_def, hrt]
    · simp [refresh_ghl_token.eq_def, hrt]
  · intro a m
    by_cases hrt : isFalsy a.refresh_token = true <;>
      simp [refresh_ghl_token.eq_def, hrt]
  · intro a s b hs
    by_cases hrt : isFalsy a.refresh_token = true <;>
      simp [refresh_ghl_token.eq_def, hrt, hs]
  · intro a
    by_cases hrt : isFalsy a.refresh_token = true <;>
      simp [refresh_ghl_token.eq_def, hrt]
  · intro a j hrt hj
    constructor
    · simp [refresh_ghl_token.eq_def, hrt]
    · simp [refresh_ghl_token.eq_def, hrt, jGetD, hj]

/-- Witness for `c9_token_refresh` at a concrete credentials row and a
successful response without a `refresh_token` key. -/
theorem c9_token_refresh_witness :
    (refresh_ghl_token (some { refresh_token := some "R" })
      (.resp 200 (.ok {}))).1.1 = true ∧
    Option.map AuthRow.refresh_token
        (refresh_ghl_token (some { refresh_token := some "R" })
          (.resp 200 (.ok {}))).2 =
      some (some "R") :=
  c9_token_refresh.2.2.2.2.2.2 { refresh_token := some "R" } {} (by decide) rfl

/-- Witness for `c7_structured_result` at a failing fetch. -/
theorem c7_structured_result_witness :
    (sync_patients_incremental (.error "connection reset") none (fun _ => none)
      []).1.status = "error" ∧
    (sync_patients_incremental (.error "connection reset") none (fun _ => none)
      []).2 = ([] : List ContactRow) :=
  (c7_structured_result (.error "connection reset") none (fun _ => none) []).2.1
    "connection reset" rfl

end EPhysio
